import Mathlib

/-!
# Verification of the agricultural chat frontend

A shallow embedding, in Lean 4, of the claim-relevant parts of the
`aitf-assignment` repository: a React chat UI that forwards text and
microphone audio to a Flask backend.

Embedded source files:
* `frontend/src/services/api.js` (the unnamed module exporting `chatAPI`,
  `weatherAPI`, `agricultureAPI`, `apiUtils` and the axios instance `api`):
  validation of audio blobs (`apiUtils.validateAudioBlob`), multipart form
  construction (`apiUtils.createVoiceFormData`), and the fixed HTTP client
  configuration.
* `frontend/src/hooks/useDeepgramVoiceRecording.js`: the voice-recording
  controller (`cancelRecording`, the `mediaRecorder.onstop` handler, and
  the hook's own upload path `processAudioWithBackend`).
* `frontend/src/App.jsx` (`ChatInterface`): the chat orchestration state
  (`messages`, `sessionId`, `currentLocation`, `currentWeather`) and its
  transitions `handleSendMessage` and `processIntelligentChatResponse`.

Modelling conventions: JavaScript values that may be `null`/`undefined`
become `Option`; JS truthiness of a string field (`if (x)`) becomes a
non-empty-string test; promise rejection of a backend call becomes
`Except String`; `Date.now()` identifiers and timestamps are
environment inputs that no message-level logic inspects and are not
carried in the embedded `ChatMessage`; React `setX` state updates inside
one handler are threaded sequentially through an explicit state record,
matching the functional-update (`prev => ...`) style the source uses for
the message list.
-/

/-! ## Audio blobs and the JS `String.prototype.includes` helper -/

/-- An in-memory audio buffer as the code observes it: a byte length
(`Blob.size`) and a declared MIME type string (`Blob.type`). -/
structure AudioBlob where
  size : Nat
  type : String
deriving DecidableEq, Repr

/-- Whether `p` occurs as a contiguous run somewhere in `l` (checked at
every suffix). -/
def charsContain (p : List Char) : List Char → Bool
  | [] => p.isPrefixOf ([] : List Char)
  | c :: cs => p.isPrefixOf (c :: cs) || charsContain p cs

/-- JS `s.includes(pat)`: `true` iff `pat` occurs as a substring of `s`. -/
def strIncludes (s pat : String) : Bool :=
  charsContain pat.toList s.toList

/-! ## `apiUtils.validateAudioBlob` (services/api.js) -/

/-- The validation record built by `validateAudioBlob`:
`{ valid: true, warnings: [], errors: [] }` with strings pushed in
program order. -/
structure ValidationResult where
  valid : Bool
  warnings : List String
  errors : List String
deriving DecidableEq, Repr

/-- Source: `const maxSize = 500 * 1024 * 1024; // 500MB` -/
def maxAudioSize : Nat := 500 * 1024 * 1024

/-- Source: `const supportedTypes = ["audio/webm", "audio/wav", "audio/mp3", "audio/ogg"]` -/
def supportedAudioTypes : List String :=
  ["audio/webm", "audio/wav", "audio/mp3", "audio/ogg"]

/-- The `${(audioBlob.size / 1024 / 1024).toFixed(1)}` fragment of the
oversize error message: the size in MiB rendered with one decimal digit,
rounding half up (Nat model of `Number.prototype.toFixed(1)`). -/
def sizeMBFixed1 (size : Nat) : String :=
  let tenths := (size * 10 + 524288) / 1048576
  toString (tenths / 10) ++ "." ++ toString (tenths % 10)

/-- Source: `apiUtils.validateAudioBlob(audioBlob)`.  The argument is `Option`al
to model the `!audioBlob` null check; the mutations of the JS `result`
object are threaded as record updates in program order, and the early
`return` after the empty check is the first `match`/`if` arm. -/
def validateAudioBlob (audioBlob : Option AudioBlob) : ValidationResult :=
  let result : ValidationResult := { valid := true, warnings := [], errors := [] }
  match audioBlob with
  | none =>
      { result with valid := false, errors := result.errors ++ ["Audio data is empty"] }
  | some blob =>
      if blob.size = 0 then
        { result with valid := false, errors := result.errors ++ ["Audio data is empty"] }
      else
        let result :=
          if blob.size > maxAudioSize then
            { result with
              valid := false,
              errors := result.errors ++
                ["Audio file too large: " ++ sizeMBFixed1 blob.size ++ "MB (max: 500MB)"] }
          else result
        let result :=
          if blob.size < 1024 then
            { result with warnings := result.warnings ++
                ["Audio file very small - may not contain speech"] }
          else result
        let result :=
          if supportedAudioTypes.any (fun t => strIncludes blob.type t) then result
          else
            { result with warnings := result.warnings ++
                ["Audio type " ++ blob.type ++ " may not be optimal"] }
        result

/-! ## `apiUtils.createVoiceFormData` and the hook's own upload form -/

/-- The observable shape of the multipart body both upload paths build:
the audio part's field name and filename, the optional `session_id`
part, and the `language` part. -/
structure VoiceFormData where
  audioField : String
  audioFilename : String
  session_id : Option String
  language : String
deriving DecidableEq, Repr

/-- Source: `apiUtils.createVoiceFormData(audioBlob, options)`: filename
`recording.webm`/`recording.wav` chosen by `audioBlob.type.includes("webm")`;
`session_id` appended only when `options.session_id` is truthy;
`language` is `options.language || "ja"`. -/
def createVoiceFormData (audioBlob : AudioBlob)
    (session_id : Option String) (language : Option String) : VoiceFormData :=
  { audioField := "audio"
  , audioFilename :=
      "recording." ++ (if strIncludes audioBlob.type "webm" then "webm" else "wav")
  , session_id :=
      match session_id with
      | some s => if s.isEmpty then none else some s
      | none => none
  , language :=
      match language with
      | some l => if l.isEmpty then "ja" else l
      | none => "ja" }

/-- The form built inline by `processAudioWithBackend` in
`useDeepgramVoiceRecording.js`: field `"audio"`, hard-coded filename
`"recording.webm"`, no session part, `language` always `"ja"`. -/
def hookVoiceFormData (audioBlob : AudioBlob) : VoiceFormData :=
  let _ := audioBlob
  { audioField := "audio"
  , audioFilename := "recording.webm"
  , session_id := none
  , language := "ja" }

/-- Modelled from the spec: "an inferred filename based on encoding"
(webm-container vs wav), the rule the claim asserts for every
submission path. -/
def specInferredFilename (audioBlob : AudioBlob) : String :=
  "recording." ++ (if strIncludes audioBlob.type "webm" then "webm" else "wav")

/-! ## Fixed HTTP client configuration (services/api.js) -/

/-- The `axios.create` configuration: base URL and request timeout in
milliseconds.  The live source sets `timeout: 60000,
// Increased timeout for voice processing`. -/
structure ApiConfig where
  baseURL : String
  timeoutMs : Nat
deriving DecidableEq, Repr

/-- Source: `const api = axios.create({ baseURL: API_BASE_URL, timeout: 60000, ... })` -/
def api : ApiConfig :=
  { baseURL := "http://localhost:5000", timeoutMs := 60000 }

/-- Source: `chatAPI.processVoiceInput` posts the multipart body with `fetch`,
which carries no timeout option in the source: no explicit timeout is
configured for the voice submission. -/
def processVoiceInputTimeoutMs : Option Nat := none

/-! ## The voice-recording controller (useDeepgramVoiceRecording.js)

The hook's mutable pieces — the `useState` cells and the three refs —
form the controller state.  `mediaRecorder` records whether
`mediaRecorderRef.current` holds a recorder, together with the
`mimeType` its `onstop` closure captured; `audioChunks` keeps the byte
sizes of the buffered chunks; `stream` is whether `streamRef.current`
holds a live device stream.  Event handlers become transitions on this
state; `onstop` is split into its synchronous part plus the blob it
hands to `processAudioWithBackend` (when it does). -/

/-- The controller state of `useDeepgramVoiceRecording`. -/
structure RecorderState where
  isRecording : Bool
  isProcessing : Bool
  transcript : String
  confidence : ℚ
  error : Option String
  mediaRecorder : Option String
  audioChunks : List Nat
  stream : Bool
deriving DecidableEq

/-- Source: `cancelRecording` conditionally signals the recorder to stop (an
asynchronous side effect that only queues a later `onstop` event and
touches no state here), then synchronously stops the audio tracks,
nulls `streamRef`, resets every status flag and clears the chunk
buffer.  `mediaRecorderRef` itself is not cleared by the source. -/
def cancelRecording (st : RecorderState) : RecorderState :=
  { st with
    stream := false,
    isRecording := false,
    isProcessing := false,
    transcript := "",
    confidence := 0,
    error := none,
    audioChunks := [] }

/-- The `event.data.size > 0` guard of `mediaRecorder.ondataavailable`:
a delivered chunk is appended only when non-empty. -/
def ondataavailable (st : RecorderState) (chunkSize : Nat) : RecorderState :=
  if chunkSize > 0 then { st with audioChunks := st.audioChunks ++ [chunkSize] }
  else st

/-- The synchronous part of `mediaRecorder.onstop` for the closure's
captured `mimeType`: flips to processing, releases the stream, builds
the blob from the buffered chunks, and either surfaces the
empty-recording error (second component `none`: `processAudioWithBackend`
is not invoked) or hands the blob on for upload (second component
`some blob`). -/
def onstopStep (st : RecorderState) (mimeType : String) :
    RecorderState × Option AudioBlob :=
  let st := { st with isRecording := false, isProcessing := true }
  let st := { st with stream := false }
  let audioBlob : AudioBlob :=
    { size := st.audioChunks.foldl (· + ·) 0, type := mimeType }
  if audioBlob.size = 0 then
    ({ st with
        error := some "録音データが空です。もう一度お試しください",
        isProcessing := false }, none)
  else
    (st, some audioBlob)

/-- A controller state is idle exactly when neither recording nor
processing, with no buffered chunks and no held device stream. -/
def RecorderState.isIdle (st : RecorderState) : Prop :=
  st.isRecording = false ∧ st.isProcessing = false ∧
    st.audioChunks = [] ∧ st.stream = false

/-! ## Chat orchestration (App.jsx, `ChatInterface`) -/

/-- A resolved location `{city, country}`. -/
structure Location where
  city : String
  country : String
deriving DecidableEq, Repr

/-- The `location_info` object of a backend chat response. -/
structure LocationInfo where
  location_changed : Bool
  current_location : Location
  confidence : ℚ
  extracted_location : Option Location
deriving DecidableEq

/-- A weather snapshot is forwarded unchanged from the backend and
never inspected by the orchestration logic; it is modelled as its
opaque JSON payload. -/
abbrev Weather := String

/-- The `type` tag of a chat message. -/
inductive MsgType where
  | user
  | assistant
  | system
  | location_change
  | error
deriving DecidableEq, Repr

/-- Message content: user messages carry the plain text, the other
kinds carry a `{japanese, english}` pair. -/
inductive MsgContent where
  | text (s : String)
  | bilingual (japanese english : String)
deriving DecidableEq, Repr

/-- A conversation-log entry as `ChatInterface` builds it.  `Date.now()`
ids and timestamps are environment inputs no logic inspects and are
omitted; the fields below are the ones the handlers set and the claims
observe. -/
structure ChatMessage where
  mtype : MsgType
  content : MsgContent
  weather : Option Weather := none
  recommendations : Option String := none
  location : Option Location := none
  confidence : ℚ := 0
  location_data : Option Location := none
  voice_input : Bool := false
deriving DecidableEq

/-- A resolved (non-thrown) `/api/chat/` response body.  A JS body in
which `success` is absent is falsy at the `if (response.success)`
check, so absence is modelled as `success = false`; `session_id` and
the optional payloads are `Option`s. -/
structure ChatResponse where
  success : Bool
  response : String
  session_id : Option String
  location_info : Option LocationInfo
  weather : Option Weather
  crop_recommendations : Option String
  query_intelligence : Option String
deriving DecidableEq

/-- The orchestration state of `ChatInterface`: the `useState` cells the
claims observe. -/
structure ChatState where
  messages : List ChatMessage
  inputText : String
  isLoading : Bool
  sessionId : Option String
  currentLocation : Location
  currentWeather : Option Weather
  uiError : Option String
deriving DecidableEq

/-- The `// Update session ID if new` block: JS
`if (response.session_id && response.session_id !== sessionId)` — an
absent or empty-string id is falsy and never adopted, any other id
differing from the stored one is adopted. -/
def sessionStep (st : ChatState) (response : ChatResponse) : ChatState :=
  match response.session_id with
  | some s =>
      if ¬s.isEmpty ∧ some s ≠ st.sessionId then { st with sessionId := some s }
      else st
  | none => st

/-- The location-change notification message built when
`locationInfo.location_changed` is truthy. -/
def locationChangeMessageFor (li : LocationInfo) : ChatMessage :=
  { mtype := .location_change
  , content := .bilingual
      ("📍 位置が" ++ li.current_location.city ++ ", " ++
        li.current_location.country ++
        "に変更されました。この場所の天気と農業情報を取得しています。")
      ("📍 Location changed to " ++ li.current_location.city ++ ", " ++
        li.current_location.country ++
        ". Getting weather and agricultural info for this location.")
  , location_data := li.extracted_location }

/-- The `// Check if location was extracted/changed` block: when
`locationInfo && locationInfo.location_changed`, moves
`currentLocation` and appends the notification message. -/
def locationStep (st : ChatState) (response : ChatResponse) : ChatState :=
  match response.location_info with
  | some li =>
      if li.location_changed then
        let st := { st with currentLocation := li.current_location }
        { st with messages := st.messages ++ [locationChangeMessageFor li] }
      else st
  | none => st

/-- The `// Add AI response` message.  `loc` is the `currentLocation`
value in scope at that point (used only when `locationInfo` is null). -/
def aiMessageFor (response : ChatResponse) (loc : Location)
    (isVoiceInput : Bool) : ChatMessage :=
  { mtype := .assistant
  , content := .bilingual response.response response.response
  , weather := response.weather
  , recommendations := response.crop_recommendations
  , location :=
      match response.location_info with
      | some li => some li.current_location
      | none => some loc
  , confidence :=
      match response.location_info with
      | some li => li.confidence
      | none => 0
  , voice_input := isVoiceInput }

/-- The `// Update weather if provided` block. -/
def weatherStep (st : ChatState) (response : ChatResponse) : ChatState :=
  match response.weather with
  | some w => { st with currentWeather := some w }
  | none => st

/-- Source: `processIntelligentChatResponse(response, isVoiceInput)` —
on a truthy `success` flag, runs the four blocks in program order
(session id, location change, assistant message, weather refresh); on a
falsy `success` flag (absent in the body, or `false`) it does nothing
at all.  The JS closure variable `currentLocation` read by the
assistant message is the pre-handler value `st.currentLocation`; it is
only reachable when `location_info` is null, in which case
`locationStep` left it untouched. -/
def processIntelligentChatResponse (st : ChatState) (response : ChatResponse)
    (isVoiceInput : Bool := false) : ChatState :=
  if response.success then
    let st1 := sessionStep st response
    let st2 := locationStep st1 response
    let st3 := { st2 with
      messages := st2.messages ++ [aiMessageFor response st.currentLocation isVoiceInput] }
    weatherStep st3 response
  else st

/-- The optimistic user message appended before the backend call. -/
def userMessageFor (text : String) : ChatMessage :=
  { mtype := .user, content := .text text }

/-- The synthetic error message appended in the `catch` block, built
from the rejection's message. -/
def errorMessageFor (errMsg : String) : ChatMessage :=
  { mtype := .error
  , content := .bilingual ("エラーが発生しました: " ++ errMsg)
      ("Error occurred: " ++ errMsg) }

/-- The view state after the optimistic prefix of `handleSendMessage`:
loading set, banner cleared, user message appended, input box cleared. -/
def afterUserAppend (st : ChatState) (text : String) : ChatState :=
  { st with
    isLoading := true,
    uiError := none,
    messages := st.messages ++ [userMessageFor text],
    inputText := "" }

/-- Source: `handleSendMessage(message)` — takes the text (`message ||
inputText.trim()`), bails out when empty, sets loading and clears the
banner, optimistically appends the user message and clears the input
box, then either processes the resolved response or appends the single
synthetic error message built from the rejection's message; `isLoading`
is cleared in the `finally` block on both paths.  The backend call
`chatAPI.sendMessage` resolves with the body (`.ok`) or rejects
(`.error`) with `error.response?.data?.error || "チャット送信に失敗しました"`. -/
def handleSendMessage (st : ChatState) (message : Option String)
    (backendResult : Except String ChatResponse) : ChatState :=
  let text :=
    match message with
    | some m => if m.isEmpty then st.inputText.trim else m
    | none => st.inputText.trim
  if text.isEmpty then st
  else
    let st := { st with isLoading := true, uiError := none }
    let st := { st with messages := st.messages ++ [userMessageFor text], inputText := "" }
    match backendResult with
    | .ok response =>
        let st := processIntelligentChatResponse st response false
        { st with isLoading := false }
    | .error errMsg =>
        let st := { st with uiError := some errMsg }
        let st := { st with messages := st.messages ++ [errorMessageFor errMsg] }
        { st with isLoading := false }

/-- Number of conversation-log entries of a given type. -/
def countMsgType (t : MsgType) (msgs : List ChatMessage) : Nat :=
  msgs.countP (fun m => m.mtype = t)

/-! ## Concrete values for scenarios, witnesses and counterexamples -/

/-- The default location, `useState({ city: "Tokyo", country: "JP" })`. -/
def tokyo : Location := { city := "Tokyo", country := "JP" }

/-- The `ChatInterface` state right after mount: empty log, no session,
Tokyo/JP, no weather snapshot yet. -/
def initialChatState : ChatState :=
  { messages := []
  , inputText := ""
  , isLoading := false
  , sessionId := none
  , currentLocation := tokyo
  , currentWeather := none
  , uiError := none }

/-- The recording hook's state right after mount: all flags down,
nothing buffered, no device held. -/
def freshRecorder : RecorderState :=
  { isRecording := false
  , isProcessing := false
  , transcript := ""
  , confidence := 0
  , error := none
  , mediaRecorder := none
  , audioChunks := []
  , stream := false }

/-- The `location_info` of the C4 end-to-end scenario:
`location_changed: true`, Tokyo/JP, confidence 0.9. -/
def tokyoLocationInfo : LocationInfo :=
  { location_changed := true
  , current_location := tokyo
  , confidence := 9 / 10
  , extracted_location := some tokyo }

/-- The successful backend body of the C4 end-to-end scenario. -/
def tokyoWeatherResponse : ChatResponse :=
  { success := true
  , response := "東京は晴れです。"
  , session_id := some "abc123"
  , location_info := some tokyoLocationInfo
  , weather := some "tokyo-weather-snapshot"
  , crop_recommendations := none
  , query_intelligence := none }

/-- A resolved backend body whose `success` flag is `false` (or absent,
which the `if (response.success)` check treats identically). -/
def unsuccessfulResponse : ChatResponse :=
  { success := false
  , response := ""
  , session_id := none
  , location_info := none
  , weather := none
  , crop_recommendations := none
  , query_intelligence := none }

/-- A successful body carrying a session identifier different from the
one already stored, with no other payload. -/
def differentSessionResponse : ChatResponse :=
  { success := true
  , response := "ok"
  , session_id := some "xyz"
  , location_info := none
  , weather := none
  , crop_recommendations := none
  , query_intelligence := none }

/-! ## Helper lemmas: `validateAudioBlob` normal forms -/

/-- A null or zero-length blob is rejected immediately with the single
empty-audio error and no warnings. -/
theorem validateAudioBlob_empty (blob : AudioBlob) (h : blob.size = 0) :
    validateAudioBlob (some blob) =
      { valid := false, warnings := [], errors := ["Audio data is empty"] } := by
  unfold validateAudioBlob
  simp [h]

/-- Normal form of `validateAudioBlob` on a non-empty blob: validity is
exactly the size ceiling check, the two warnings accrue independently,
and the only possible error is the oversize one. -/
theorem validateAudioBlob_nonempty (blob : AudioBlob) (h : blob.size ≠ 0) :
    validateAudioBlob (some blob) =
      { valid := !decide (blob.size > maxAudioSize)
      , warnings :=
          (if blob.size < 1024 then
            ["Audio file very small - may not contain speech"] else []) ++
          (if supportedAudioTypes.any (fun t => strIncludes blob.type t) then []
           else ["Audio type " ++ blob.type ++ " may not be optimal"])
      , errors :=
          if blob.size > maxAudioSize then
            ["Audio file too large: " ++ sizeMBFixed1 blob.size ++ "MB (max: 500MB)"]
          else [] } := by
  unfold validateAudioBlob
  by_cases hL : blob.size > maxAudioSize <;>
    by_cases hS : blob.size < 1024 <;>
      by_cases hT : supportedAudioTypes.any (fun t => strIncludes blob.type t) <;>
        simp [h, hL, hS, hT]

/-! ## C10 — validation totality and the valid/errors invariant -/

/-- C10: `validateAudioBlob` is total (a Lean `def`, defined on every
input, never throwing) and its result keeps the validity flag true
exactly when the errors list is empty; a zero-length buffer (and a null
one) yields immediately the single empty-audio error with an empty
warnings list — the under-1-KiB and encoding warnings are not emitted
for empty buffers. -/
theorem validateAudioBlob_valid_iff_no_errors (b : Option AudioBlob) (blob : AudioBlob) :
    ((validateAudioBlob b).valid = true ↔ (validateAudioBlob b).errors = []) ∧
    validateAudioBlob (some { blob with size := 0 }) =
      { valid := false, warnings := [], errors := ["Audio data is empty"] } ∧
    validateAudioBlob none =
      { valid := false, warnings := [], errors := ["Audio data is empty"] } := by
  refine ⟨?_, validateAudioBlob_empty _ rfl, rfl⟩
  cases b with
  | none => simp [validateAudioBlob]
  | some blob' =>
      by_cases h0 : blob'.size = 0
      · rw [validateAudioBlob_empty _ h0]
        simp
      · rw [validateAudioBlob_nonempty _ h0]
        by_cases hL : blob'.size > maxAudioSize <;> simp [hL]

/-! ## C7 — small buffers are valid but warned about -/

/-- C7: every buffer strictly between 0 and 1 KiB validates as valid
with a non-empty warnings list, and warnings never make the validity
flag false — validity can only fail on the two size errors (zero length
or over the 500 MiB ceiling). -/
theorem validateAudioBlob_small_valid_warned (blob : AudioBlob)
    (h0 : 0 < blob.size) (h1 : blob.size < 1024) :
    (validateAudioBlob (some blob)).valid = true ∧
    (validateAudioBlob (some blob)).warnings ≠ [] ∧
    (∀ b : AudioBlob, (validateAudioBlob (some b)).valid = false →
      b.size = 0 ∨ b.size > maxAudioSize) := by
  have hne : blob.size ≠ 0 := by omega
  have hL : ¬blob.size > maxAudioSize := by
    unfold maxAudioSize
    omega
  rw [validateAudioBlob_nonempty _ hne]
  refine ⟨by simp [hL], ?_, ?_⟩
  · by_cases hT : supportedAudioTypes.any (fun t => strIncludes blob.type t) <;>
      simp [h1, hT]
  · intro b hb
    by_cases hb0 : b.size = 0
    · exact Or.inl hb0
    · rw [validateAudioBlob_nonempty _ hb0] at hb
      by_cases hbL : b.size > maxAudioSize
      · exact Or.inr hbL
      · simp [hbL] at hb

/-- Witness for C7 at a 512-byte webm buffer. -/
theorem validateAudioBlob_small_valid_warned_witness :
    (validateAudioBlob (some { size := 512, type := "audio/webm" })).valid = true ∧
    (validateAudioBlob (some { size := 512, type := "audio/webm" })).warnings ≠ [] ∧
    (∀ b : AudioBlob, (validateAudioBlob (some b)).valid = false →
      b.size = 0 ∨ b.size > maxAudioSize) :=
  validateAudioBlob_small_valid_warned { size := 512, type := "audio/webm" }
    (by decide) (by decide)

/-! ## C6 — empty buffers are rejected and never submitted -/

/-- C6: a zero-length buffer makes `validateAudioBlob` return an invalid
result whose error list carries the empty-audio error, and the
recording hook's `onstop` handler, facing an empty chunk buffer,
surfaces the retryable empty-recording error and never invokes the
backend submission (`processAudioWithBackend`). -/
theorem emptyAudio_invalid_never_submitted (blob : AudioBlob) (hb : blob.size = 0)
    (st : RecorderState) (mimeType : String)
    (hc : st.audioChunks.foldl (· + ·) 0 = 0) :
    (validateAudioBlob (some blob)).valid = false ∧
    "Audio data is empty" ∈ (validateAudioBlob (some blob)).errors ∧
    (onstopStep st mimeType).2 = none ∧
    (onstopStep st mimeType).1.error =
      some "録音データが空です。もう一度お試しください" := by
  rw [validateAudioBlob_empty _ hb]
  refine ⟨rfl, by simp, ?_, ?_⟩ <;> simp [onstopStep, hc]

/-- Witness for C6: the zero-byte blob and the freshly mounted recorder. -/
theorem emptyAudio_invalid_never_submitted_witness :
    (validateAudioBlob (some { size := 0, type := "audio/webm" })).valid = false ∧
    "Audio data is empty" ∈
      (validateAudioBlob (some { size := 0, type := "audio/webm" })).errors ∧
    (onstopStep freshRecorder "audio/webm").2 = none ∧
    (onstopStep freshRecorder "audio/webm").1.error =
      some "録音データが空です。もう一度お試しください" :=
  emptyAudio_invalid_never_submitted { size := 0, type := "audio/webm" } rfl
    freshRecorder "audio/webm" rfl

/-! ## C3 — cancellation is idle-making, idempotent, and stop-safe -/

/-- C3: from any controller state, `cancelRecording` leaves the
controller idle (not recording, not processing, no buffered chunks, no
held stream); running it twice gives exactly the same state; and when
the recorder's asynchronous `onstop` handler fires after the
cancellation, the controller stays idle and no backend submission is
made. -/
theorem cancelRecording_idle_idempotent (st : RecorderState) (mimeType : String) :
    (cancelRecording st).isIdle ∧
    cancelRecording (cancelRecording st) = cancelRecording st ∧
    (onstopStep (cancelRecording st) mimeType).1.isIdle ∧
    (onstopStep (cancelRecording st) mimeType).2 = none := by
  refine ⟨⟨rfl, rfl, rfl, rfl⟩, rfl, ?_, ?_⟩ <;>
    simp [onstopStep, cancelRecording, RecorderState.isIdle]

/-! ## C9 — the fixed timeouts -/

/-- C9 counterexample: the claim says ordinary JSON calls run under a
30-second timeout and the voice submission under a 60-second one; in the
source the shared axios instance is created with `timeout: 60000`
(so ordinary JSON calls get 60 s, not 30 s), and the voice submission
goes through `fetch` with no timeout configured at all. -/
theorem api_timeout_not_thirty :
    api.timeoutMs ≠ 30000 ∧ api.timeoutMs = 60000 ∧
    processVoiceInputTimeoutMs ≠ some 60000 :=
  ⟨by decide, rfl, by decide⟩

/-- C9 amended: the axios client used for ordinary JSON calls is fixed
configuration with a 60-second timeout (the comment in the source says
it was increased for voice processing), and the voice-processing
submission itself is posted through `fetch` with no explicit timeout. -/
theorem api_timeout_configuration :
    api.timeoutMs = 60000 ∧ api.baseURL = "http://localhost:5000" ∧
    processVoiceInputTimeoutMs = none :=
  ⟨rfl, rfl, rfl⟩

/-! ## C8 — the multipart voice form -/

/-- C8 counterexample: on the recording hook's own upload path, a
wav-encoded buffer is still posted under the filename
`recording.webm` — not the filename inferred from its encoding — so the
claim's "on every submission path, including the recording hook's own
upload path" fails (the hook path also never carries a session
identifier part). -/
theorem hook_upload_filename_not_inferred :
    (hookVoiceFormData { size := 2048, type := "audio/wav" }).audioFilename =
      "recording.webm" ∧
    specInferredFilename { size := 2048, type := "audio/wav" } = "recording.wav" ∧
    (hookVoiceFormData { size := 2048, type := "audio/wav" }).audioFilename ≠
      specInferredFilename { size := 2048, type := "audio/wav" } ∧
    (hookVoiceFormData { size := 2048, type := "audio/wav" }).session_id = none := by
  refine ⟨rfl, by decide, by decide, rfl⟩

/-- C8 amended: the shared builder `createVoiceFormData` does use the
fixed field name `"audio"`, the filename inferred from the negotiated
encoding (webm-container vs wav), the session identifier part exactly
when a non-empty one is supplied, and always a language field
(defaulting to `"ja"`); the recording hook's own upload path instead
always posts under the fixed filename `"recording.webm"` regardless of
encoding, never includes a session identifier, and always sends
language `"ja"`. -/
theorem voice_form_paths (blob : AudioBlob) (sid lang : Option String)
    (s l : String) (hs : ¬s.isEmpty) (hl : ¬l.isEmpty) :
    (createVoiceFormData blob sid lang).audioField = "audio" ∧
    (createVoiceFormData blob sid lang).audioFilename = specInferredFilename blob ∧
    (createVoiceFormData blob (some s) lang).session_id = some s ∧
    (createVoiceFormData blob none lang).session_id = none ∧
    (createVoiceFormData blob sid (some l)).language = l ∧
    (createVoiceFormData blob sid none).language = "ja" ∧
    hookVoiceFormData blob =
      { audioField := "audio", audioFilename := "recording.webm",
        session_id := none, language := "ja" } := by
  refine ⟨rfl, rfl, ?_, rfl, ?_, rfl, rfl⟩ <;>
    simp [createVoiceFormData, hs, hl]

/-- Witness for C8's amended statement at a webm buffer with a supplied
session id and language. -/
theorem voice_form_paths_witness :
    (createVoiceFormData { size := 2048, type := "audio/webm" } (some "sess-1")
        (some "en")).audioField = "audio" ∧
    (createVoiceFormData { size := 2048, type := "audio/webm" } (some "sess-1")
        (some "en")).audioFilename =
      specInferredFilename { size := 2048, type := "audio/webm" } ∧
    (createVoiceFormData { size := 2048, type := "audio/webm" } (some "sess-1")
        (some "en")).session_id = some "sess-1" ∧
    (createVoiceFormData { size := 2048, type := "audio/webm" } none
        (some "en")).session_id = none ∧
    (createVoiceFormData { size := 2048, type := "audio/webm" } (some "sess-1")
        (some "en")).language = "en" ∧
    (createVoiceFormData { size := 2048, type := "audio/webm" } (some "sess-1")
        none).language = "ja" ∧
    hookVoiceFormData { size := 2048, type := "audio/webm" } =
      { audioField := "audio", audioFilename := "recording.webm",
        session_id := none, language := "ja" } :=
  voice_form_paths { size := 2048, type := "audio/webm" } (some "sess-1") (some "en")
    "sess-1" "en" (by decide) (by decide)

/-! ## Helper lemmas: orchestration step frames and equations -/

/-- The session block never touches the conversation log. -/
@[simp] theorem sessionStep_messages (st : ChatState) (resp : ChatResponse) :
    (sessionStep st resp).messages = st.messages := by
  unfold sessionStep
  split <;> first
    | rfl
    | (split <;> rfl)

/-- The session block never touches the current location. -/
@[simp] theorem sessionStep_currentLocation (st : ChatState) (resp : ChatResponse) :
    (sessionStep st resp).currentLocation = st.currentLocation := by
  unfold sessionStep
  split <;> first
    | rfl
    | (split <;> rfl)

/-- The session block never touches the weather snapshot. -/
@[simp] theorem sessionStep_currentWeather (st : ChatState) (resp : ChatResponse) :
    (sessionStep st resp).currentWeather = st.currentWeather := by
  unfold sessionStep
  split <;> first
    | rfl
    | (split <;> rfl)

/-- The location block never touches the session identifier. -/
@[simp] theorem locationStep_sessionId (st : ChatState) (resp : ChatResponse) :
    (locationStep st resp).sessionId = st.sessionId := by
  unfold locationStep
  split <;> first
    | rfl
    | (split <;> rfl)

/-- The location block never touches the weather snapshot. -/
@[simp] theorem locationStep_currentWeather (st : ChatState) (resp : ChatResponse) :
    (locationStep st resp).currentWeather = st.currentWeather := by
  unfold locationStep
  split <;> first
    | rfl
    | (split <;> rfl)

/-- The weather block never touches the conversation log. -/
@[simp] theorem weatherStep_messages (st : ChatState) (resp : ChatResponse) :
    (weatherStep st resp).messages = st.messages := by
  unfold weatherStep
  split <;> rfl

/-- The weather block never touches the session identifier. -/
@[simp] theorem weatherStep_sessionId (st : ChatState) (resp : ChatResponse) :
    (weatherStep st resp).sessionId = st.sessionId := by
  unfold weatherStep
  split <;> rfl

/-- The weather block never touches the current location. -/
@[simp] theorem weatherStep_currentLocation (st : ChatState) (resp : ChatResponse) :
    (weatherStep st resp).currentLocation = st.currentLocation := by
  unfold weatherStep
  split <;> rfl

/-- Equation: a successful response runs the four blocks in order. -/
theorem process_success_eq (st : ChatState) (resp : ChatResponse) (v : Bool)
    (hs : resp.success = true) :
    processIntelligentChatResponse st resp v =
      weatherStep
        { locationStep (sessionStep st resp) resp with
          messages := (locationStep (sessionStep st resp) resp).messages ++
            [aiMessageFor resp st.currentLocation v] } resp := by
  unfold processIntelligentChatResponse
  simp [hs]

/-- Equation: a falsy success flag makes the processor a no-op. -/
theorem process_failure_eq (st : ChatState) (resp : ChatResponse) (v : Bool)
    (hs : resp.success = false) :
    processIntelligentChatResponse st resp v = st := by
  unfold processIntelligentChatResponse
  simp [hs]

/-- Equation: the session block when the body omits `session_id`. -/
theorem sessionStep_id_none (st : ChatState) (resp : ChatResponse)
    (h : resp.session_id = none) : sessionStep st resp = st := by
  unfold sessionStep
  rw [h]

/-- Equation: the session block when the body carries an empty (falsy)
`session_id`. -/
theorem sessionStep_id_empty (st : ChatState) (resp : ChatResponse) (s : String)
    (h : resp.session_id = some s) (he : s.isEmpty = true) :
    sessionStep st resp = st := by
  unfold sessionStep
  rw [h]
  simp [he]

/-- Equation: the session block when the body repeats the stored id. -/
theorem sessionStep_id_same (st : ChatState) (resp : ChatResponse) (s : String)
    (h : resp.session_id = some s) (heq : some s = st.sessionId) :
    sessionStep st resp = st := by
  unfold sessionStep
  rw [h]
  simp [heq]

/-- Equation: the session block when the body carries a non-empty id
different from the stored one. -/
theorem sessionStep_id_diff (st : ChatState) (resp : ChatResponse) (s : String)
    (h : resp.session_id = some s) (he : s.isEmpty = false)
    (hne : some s ≠ st.sessionId) :
    sessionStep st resp = { st with sessionId := some s } := by
  unfold sessionStep
  rw [h]
  simp [he, hne]

/-- Equation: the location block on a truthy `location_changed`. -/
theorem locationStep_changed (st : ChatState) (resp : ChatResponse) (li : LocationInfo)
    (h : resp.location_info = some li) (hc : li.location_changed = true) :
    locationStep st resp =
      { st with
        currentLocation := li.current_location,
        messages := st.messages ++ [locationChangeMessageFor li] } := by
  unfold locationStep
  rw [h]
  simp [hc]

/-- Equation: the location block when `location_changed` is false. -/
theorem locationStep_not_changed (st : ChatState) (resp : ChatResponse) (li : LocationInfo)
    (h : resp.location_info = some li) (hc : li.location_changed = false) :
    locationStep st resp = st := by
  unfold locationStep
  rw [h]
  simp [hc]

/-- Equation: the location block when `location_info` is absent. -/
theorem locationStep_none (st : ChatState) (resp : ChatResponse)
    (h : resp.location_info = none) : locationStep st resp = st := by
  unfold locationStep
  rw [h]

/-- Equation: the weather block when a snapshot is included. -/
theorem weatherStep_some (st : ChatState) (resp : ChatResponse) (w : Weather)
    (h : resp.weather = some w) :
    weatherStep st resp = { st with currentWeather := some w } := by
  unfold weatherStep
  rw [h]

/-- Equation: the weather block when no snapshot is included. -/
theorem weatherStep_none (st : ChatState) (resp : ChatResponse)
    (h : resp.weather = none) : weatherStep st resp = st := by
  unfold weatherStep
  rw [h]

/-- Counting a message type distributes over log concatenation. -/
theorem countMsgType_append (t : MsgType) (xs ys : List ChatMessage) :
    countMsgType t (xs ++ ys) = countMsgType t xs + countMsgType t ys := by
  simp [countMsgType, List.countP_append]

/-- The assistant message counts zero location-change entries. -/
theorem countMsgType_aiMessage (resp : ChatResponse) (loc : Location) (v : Bool) :
    countMsgType .location_change [aiMessageFor resp loc v] = 0 := by
  simp [countMsgType, List.countP_cons, aiMessageFor]

/-- The location-change notification counts one location-change entry. -/
theorem countMsgType_locationChangeMessage (li : LocationInfo) :
    countMsgType .location_change [locationChangeMessageFor li] = 1 := by
  simp [countMsgType, List.countP_cons, locationChangeMessageFor]

/-- Equation: the text path on a resolved backend call. -/
theorem handleSendMessage_ok (st : ChatState) (m : String) (hm : m.isEmpty = false)
    (resp : ChatResponse) :
    handleSendMessage st (some m) (.ok resp) =
      { processIntelligentChatResponse (afterUserAppend st m) resp false
        with isLoading := false } := by
  unfold handleSendMessage afterUserAppend
  simp [hm]

/-- Equation: the text path on a rejected backend call. -/
theorem handleSendMessage_error (st : ChatState) (m e : String)
    (hm : m.isEmpty = false) :
    handleSendMessage st (some m) (.error e) =
      { st with
        isLoading := false,
        uiError := some e,
        messages := st.messages ++ [userMessageFor m, errorMessageFor e],
        inputText := "" } := by
  unfold handleSendMessage
  simp [hm]

/-! ## C1 — session identifier stability -/

/-- C1 counterexample: with the stored identifier already set to
`"abc123"` by an earlier successful response, processing a later
successful response that carries the different identifier `"xyz"` (and
no other signal — the protocol has no separate new-session field)
overwrites the stored identifier, while the claim requires it to remain
`"abc123"`. -/
theorem sessionId_overwritten_on_different_id :
    ({ initialChatState with sessionId := some "abc123" } : ChatState).sessionId =
      some "abc123" ∧
    (processIntelligentChatResponse
        { initialChatState with sessionId := some "abc123" }
        differentSessionResponse false).sessionId = some "xyz" ∧
    (some "xyz" : Option String) ≠ some "abc123" := by
  refine ⟨rfl, ?_, by decide⟩
  rw [process_success_eq _ _ _ rfl, weatherStep_sessionId]
  show (locationStep (sessionStep _ _) _).sessionId = _
  rw [locationStep_sessionId,
    sessionStep_id_diff _ _ "xyz" rfl rfl (by decide)]

/-- C1 amended: once the stored session identifier is set, a subsequent
successful response that omits `session_id`, carries an empty one, or
repeats the stored identifier leaves it unchanged; a successful
response carrying a different non-empty `session_id`, however,
overwrites the stored identifier with the new value (the code treats
any differing identifier as the backend signalling a new session). -/
theorem sessionId_merge_behaviour (st : ChatState) (resp : ChatResponse) (v : Bool)
    (hs : resp.success = true) :
    (resp.session_id = none →
      (processIntelligentChatResponse st resp v).sessionId = st.sessionId) ∧
    (∀ s, resp.session_id = some s → s.isEmpty = true →
      (processIntelligentChatResponse st resp v).sessionId = st.sessionId) ∧
    (∀ s, resp.session_id = some s → some s = st.sessionId →
      (processIntelligentChatResponse st resp v).sessionId = st.sessionId) ∧
    (∀ s, resp.session_id = some s → s.isEmpty = false → some s ≠ st.sessionId →
      (processIntelligentChatResponse st resp v).sessionId = some s) := by
  rw [process_success_eq _ _ _ hs, weatherStep_sessionId]
  refine ⟨?_, ?_, ?_, ?_⟩
  · intro h
    show (locationStep (sessionStep _ _) _).sessionId = _
    rw [locationStep_sessionId, sessionStep_id_none _ _ h]
  · intro s h he
    show (locationStep (sessionStep _ _) _).sessionId = _
    rw [locationStep_sessionId, sessionStep_id_empty _ _ s h he]
  · intro s h heq
    show (locationStep (sessionStep _ _) _).sessionId = _
    rw [locationStep_sessionId, sessionStep_id_same _ _ s h heq]
  · intro s h he hne
    show (locationStep (sessionStep _ _) _).sessionId = _
    rw [locationStep_sessionId, sessionStep_id_diff _ _ s h he hne]

/-- Witness for C1's amended statement: a state with a stored session
identifier and a successful response omitting the field leaves the
identifier unchanged. -/
theorem sessionId_merge_behaviour_witness :
    (processIntelligentChatResponse
        { initialChatState with sessionId := some "abc123" }
        { unsuccessfulResponse with success := true } false).sessionId =
      ({ initialChatState with sessionId := some "abc123" } : ChatState).sessionId :=
  (sessionId_merge_behaviour
      { initialChatState with sessionId := some "abc123" }
      { unsuccessfulResponse with success := true } false rfl).1 rfl

/-! ## C2 — the text-path failure behaviour -/

/-- C2 counterexample: a text exchange that resolves with `success:
false` appends no synthetic error message at all — the conversation log
gains only the optimistic user message — while the claim requires
exactly one error entry for every failed exchange, including one whose
success flag is absent or false. -/
theorem silent_unsuccessful_response_counterexample :
    (handleSendMessage initialChatState (some "hello")
        (.ok unsuccessfulResponse)).messages = [userMessageFor "hello"] ∧
    countMsgType .error
      (handleSendMessage initialChatState (some "hello")
        (.ok unsuccessfulResponse)).messages = 0 := by
  rw [handleSendMessage_ok initialChatState "hello" rfl unsuccessfulResponse,
    process_failure_eq _ _ _ rfl]
  exact ⟨rfl, rfl⟩

/-- C2 amended: when the text-path backend call rejects, exactly one
synthetic error message carrying the failure reason is appended and,
beyond the already-appended optimistic user message, the conversation
log, session identifier, current location and weather snapshot are
unchanged; but when the call resolves with a `success` flag that is
absent or `false`, the response is silently ignored — no error message
is appended, the log gains only the optimistic user message, and
session, location and weather are likewise unchanged. -/
theorem text_failure_handling (st : ChatState) (m e : String)
    (hm : m.isEmpty = false) (resp : ChatResponse) (hr : resp.success = false) :
    (handleSendMessage st (some m) (.error e)).messages =
      st.messages ++ [userMessageFor m, errorMessageFor e] ∧
    (handleSendMessage st (some m) (.error e)).sessionId = st.sessionId ∧
    (handleSendMessage st (some m) (.error e)).currentLocation =
      st.currentLocation ∧
    (handleSendMessage st (some m) (.error e)).currentWeather =
      st.currentWeather ∧
    (handleSendMessage st (some m) (.ok resp)).messages =
      st.messages ++ [userMessageFor m] ∧
    (handleSendMessage st (some m) (.ok resp)).sessionId = st.sessionId ∧
    (handleSendMessage st (some m) (.ok resp)).currentLocation =
      st.currentLocation ∧
    (handleSendMessage st (some m) (.ok resp)).currentWeather =
      st.currentWeather := by
  rw [handleSendMessage_error _ _ _ hm, handleSendMessage_ok _ _ hm,
    process_failure_eq _ _ _ hr]
  exact ⟨rfl, rfl, rfl, rfl, rfl, rfl, rfl, rfl⟩

/-- Witness for C2's amended statement: the fresh view, the message
`"hello"`, a network failure reason, and the unsuccessful body. -/
theorem text_failure_handling_witness :
    (handleSendMessage initialChatState (some "hello")
        (.error "チャット送信に失敗しました")).messages =
      initialChatState.messages ++
        [userMessageFor "hello", errorMessageFor "チャット送信に失敗しました"] ∧
    (handleSendMessage initialChatState (some "hello")
        (.error "チャット送信に失敗しました")).sessionId =
      initialChatState.sessionId ∧
    (handleSendMessage initialChatState (some "hello")
        (.error "チャット送信に失敗しました")).currentLocation =
      initialChatState.currentLocation ∧
    (handleSendMessage initialChatState (some "hello")
        (.error "チャット送信に失敗しました")).currentWeather =
      initialChatState.currentWeather ∧
    (handleSendMessage initialChatState (some "hello")
        (.ok unsuccessfulResponse)).messages =
      initialChatState.messages ++ [userMessageFor "hello"] ∧
    (handleSendMessage initialChatState (some "hello")
        (.ok unsuccessfulResponse)).sessionId = initialChatState.sessionId ∧
    (handleSendMessage initialChatState (some "hello")
        (.ok unsuccessfulResponse)).currentLocation =
      initialChatState.currentLocation ∧
    (handleSendMessage initialChatState (some "hello")
        (.ok unsuccessfulResponse)).currentWeather =
      initialChatState.currentWeather :=
  text_failure_handling initialChatState "hello" "チャット送信に失敗しました" rfl
    unsuccessfulResponse rfl

/-! ## C5 — location-change handling -/

/-- C5: for every successful response whose `location_info` has
`location_changed = true`, processing appends exactly one
location-change message and afterwards the stored current location
equals `location_info.current_location`; a successful response without
such a flag (no `location_info`, or `location_changed` false) appends
no location-change message and leaves the current location unchanged. -/
theorem location_change_handling (st : ChatState) (resp : ChatResponse) (v : Bool)
    (hs : resp.success = true) :
    (∀ li, resp.location_info = some li → li.location_changed = true →
      countMsgType .location_change
          (processIntelligentChatResponse st resp v).messages =
        countMsgType .location_change st.messages + 1 ∧
      (processIntelligentChatResponse st resp v).currentLocation =
        li.current_location) ∧
    (resp.location_info = none →
      countMsgType .location_change
          (processIntelligentChatResponse st resp v).messages =
        countMsgType .location_change st.messages ∧
      (processIntelligentChatResponse st resp v).currentLocation =
        st.currentLocation) ∧
    (∀ li, resp.location_info = some li → li.location_changed = false →
      countMsgType .location_change
          (processIntelligentChatResponse st resp v).messages =
        countMsgType .location_change st.messages ∧
      (processIntelligentChatResponse st resp v).currentLocation =
        st.currentLocation) := by
  refine ⟨?_, ?_, ?_⟩
  · intro li h hc
    rw [process_success_eq _ _ _ hs]
    constructor
    · simp only [weatherStep_messages, locationStep_changed _ resp li h hc,
        sessionStep_messages, countMsgType_append, countMsgType_aiMessage,
        countMsgType_locationChangeMessage]
    · simp only [weatherStep_currentLocation,
        locationStep_changed _ resp li h hc]
  · intro h
    rw [process_success_eq _ _ _ hs]
    constructor
    · simp only [weatherStep_messages, locationStep_none _ resp h,
        sessionStep_messages, countMsgType_append, countMsgType_aiMessage,
        Nat.add_zero]
    · simp only [weatherStep_currentLocation, locationStep_none _ resp h,
        sessionStep_currentLocation]
  · intro li h hc
    rw [process_success_eq _ _ _ hs]
    constructor
    · simp only [weatherStep_messages, locationStep_not_changed _ resp li h hc,
        sessionStep_messages, countMsgType_append, countMsgType_aiMessage,
        Nat.add_zero]
    · simp only [weatherStep_currentLocation,
        locationStep_not_changed _ resp li h hc, sessionStep_currentLocation]

/-- Witness for C5: the fresh view processing the Tokyo
location-change response. -/
theorem location_change_handling_witness :
    countMsgType .location_change
        (processIntelligentChatResponse initialChatState tokyoWeatherResponse
          false).messages =
      countMsgType .location_change initialChatState.messages + 1 ∧
    (processIntelligentChatResponse initialChatState tokyoWeatherResponse
        false).currentLocation = tokyoLocationInfo.current_location :=
  (location_change_handling initialChatState tokyoWeatherResponse false rfl).1
    tokyoLocationInfo rfl rfl

/-! ## Helper lemmas: projections of a successful processing run -/

/-- On a successful location-changed response, the log grows by exactly
the location-change notification and the assistant message. -/
theorem process_messages_changed (st : ChatState) (resp : ChatResponse) (v : Bool)
    (li : LocationInfo) (hs : resp.success = true)
    (h : resp.location_info = some li) (hc : li.location_changed = true) :
    (processIntelligentChatResponse st resp v).messages =
      st.messages ++
        [locationChangeMessageFor li, aiMessageFor resp st.currentLocation v] := by
  rw [process_success_eq _ _ _ hs]
  simp only [weatherStep_messages, locationStep_changed _ resp li h hc,
    sessionStep_messages, List.append_assoc, List.cons_append, List.nil_append]

/-- The stored session identifier after a successful run is whatever the
session block decided. -/
theorem process_sessionId_eq (st : ChatState) (resp : ChatResponse) (v : Bool)
    (hs : resp.success = true) :
    (processIntelligentChatResponse st resp v).sessionId =
      (sessionStep st resp).sessionId := by
  rw [process_success_eq _ _ _ hs]
  simp only [weatherStep_sessionId, locationStep_sessionId]

/-- On a successful location-changed response, the stored location moves
to the reported one. -/
theorem process_currentLocation_changed (st : ChatState) (resp : ChatResponse)
    (v : Bool) (li : LocationInfo) (hs : resp.success = true)
    (h : resp.location_info = some li) (hc : li.location_changed = true) :
    (processIntelligentChatResponse st resp v).currentLocation =
      li.current_location := by
  rw [process_success_eq _ _ _ hs]
  simp only [weatherStep_currentLocation, locationStep_changed _ resp li h hc]

/-- On a successful response carrying a weather snapshot, the cache is
refreshed to it. -/
theorem process_currentWeather_some (st : ChatState) (resp : ChatResponse)
    (v : Bool) (w : Weather) (hs : resp.success = true)
    (hw : resp.weather = some w) :
    (processIntelligentChatResponse st resp v).currentWeather = some w := by
  rw [process_success_eq _ _ _ hs, weatherStep_some _ resp w hw]

/-! ## C4 — the Tokyo end-to-end text scenario -/

/-- C4: sending the text `東京の天気はどう？` when the backend returns
success with `session_id "abc123"`, a Tokyo/JP location change with
confidence 0.9, and a weather object makes the conversation log gain
exactly three entries — user, location-change, assistant, in that
order — sets the stored session identifier to `"abc123"`, moves the
current location to Tokyo/JP, and updates the cached weather snapshot
to the returned weather. -/
theorem tokyo_text_scenario (st : ChatState) :
    ∃ u lc a : ChatMessage,
      (handleSendMessage st (some "東京の天気はどう？")
          (.ok tokyoWeatherResponse)).messages = st.messages ++ [u, lc, a] ∧
      u.mtype = .user ∧ lc.mtype = .location_change ∧ a.mtype = .assistant ∧
      (handleSendMessage st (some "東京の天気はどう？")
          (.ok tokyoWeatherResponse)).sessionId = some "abc123" ∧
      (handleSendMessage st (some "東京の天気はどう？")
          (.ok tokyoWeatherResponse)).currentLocation = tokyo ∧
      (handleSendMessage st (some "東京の天気はどう？")
          (.ok tokyoWeatherResponse)).currentWeather =
        some "tokyo-weather-snapshot" := by
  have hmain := handleSendMessage_ok st "東京の天気はどう？" rfl tokyoWeatherResponse
  refine ⟨userMessageFor "東京の天気はどう？",
    locationChangeMessageFor tokyoLocationInfo,
    aiMessageFor tokyoWeatherResponse st.currentLocation false,
    ?_, rfl, rfl, rfl, ?_, ?_, ?_⟩
  · rw [hmain]
    show (processIntelligentChatResponse (afterUserAppend st "東京の天気はどう？")
        tokyoWeatherResponse false).messages = _
    rw [process_messages_changed (afterUserAppend st "東京の天気はどう？")
      tokyoWeatherResponse false tokyoLocationInfo rfl rfl rfl]
    simp [afterUserAppend, List.append_assoc]
  · rw [hmain]
    show (processIntelligentChatResponse (afterUserAppend st "東京の天気はどう？")
        tokyoWeatherResponse false).sessionId = some "abc123"
    rw [process_sessionId_eq (afterUserAppend st "東京の天気はどう？")
      tokyoWeatherResponse false rfl]
    unfold sessionStep afterUserAppend
    have hne : ("abc123" : String).isEmpty = false := rfl
    by_cases hcase : (some "abc123" : Option String) = st.sessionId
    · simp [tokyoWeatherResponse, hne, hcase.symm]
    · simp [tokyoWeatherResponse, hne, hcase]
  · rw [hmain]
    show (processIntelligentChatResponse (afterUserAppend st "東京の天気はどう？")
        tokyoWeatherResponse false).currentLocation = tokyo
    exact (process_currentLocation_changed (afterUserAppend st "東京の天気はどう？")
      tokyoWeatherResponse false tokyoLocationInfo rfl rfl rfl).trans rfl
  · rw [hmain]
    show (processIntelligentChatResponse (afterUserAppend st "東京の天気はどう？")
        tokyoWeatherResponse false).currentWeather = some "tokyo-weather-snapshot"
    exact process_currentWeather_some (afterUserAppend st "東京の天気はどう？")
      tokyoWeatherResponse false "tokyo-weather-snapshot" rfl rfl
